import Mathlib

/-!
Shallow embedding of the chess-bank ledger store (`ChessDbFile.js`).

The store keeps a list of student accounts and an append-only list of
transactions; balances are derived by replaying the transaction log.
JavaScript numbers that the code pushes through `| 0` are modelled as
integers with an explicit signed 32-bit truncation (`toInt32`).  A
JavaScript call that can `throw`, `process.exit`, or fall off the end of
the function returning `undefined` is modelled with the `Res` outcome
type; mutation of `this.db` is modelled by explicit state passing of `Db`.
-/

namespace ChessBank

/-- Account / sentinel identifier.  Student ids are uuid strings; the
number `0` is the external-reservoir sentinel.  A strict `=== 0` test in
the source corresponds to `= AccId.reservoir` here (a uuid string is
never `=== 0`). -/
inductive AccId where
  | reservoir
  | uid (s : String)
deriving DecidableEq, Repr

/-- One element of `db.students`: `{uuid, name, pash, balance}`. -/
structure Student where
  uuid : AccId
  name : String
  pash : String
  balance : Int
deriving DecidableEq, Repr

/-- One element of `db.transactions`: `{time, from, to, amount, memo}`. -/
structure Tx where
  time : Int
  «from» : AccId
  «to» : AccId
  amount : Int
  memo : String
deriving DecidableEq, Repr

/-- The in-memory database `this.db`. -/
structure Db where
  students : List Student
  transactions : List Tx
deriving DecidableEq, Repr

/-- The distinct `throw new Error(...)` sites of the source, by message. -/
inductive JsErr where
  | nameSpaces
  | nameEmpty
  | passwordShort
  | userExists (name : String)
  | nullStudent (uuid : AccId)
  | selfTransfer
  | notInteger
  | notPositive
  | ioError
deriving DecidableEq, Repr

/-- Outcome of a call: a normal return value, a thrown `Error`, a
`process.exit`, or a retry loop that never found a fresh candidate in
the modelled generator stream. -/
inductive Res (α : Type) where
  | ok (a : α)
  | thrown (e : JsErr)
  | exited
  | looped
deriving DecidableEq, Repr

/-- JavaScript `n | 0`: signed 32-bit truncation of an integer. -/
def toInt32 (n : Int) : Int := (n + 2 ^ 31) % 2 ^ 32 - 2 ^ 31

/-- JavaScript `s.trim()`: strip leading and trailing whitespace. -/
def jsTrim (s : String) : String :=
  ⟨((s.data.dropWhile Char.isWhitespace).reverse.dropWhile Char.isWhitespace).reverse⟩

/-- JavaScript coercion of a boolean to a number, as in
`(tx.to === uuid) - (tx.from === uuid)`. -/
def boolToInt (b : Bool) : Int := if b then 1 else 0

/-- JavaScript `a < b` on numbers, producing the boolean the source
stores in the `ERRORS` table. -/
def jsLt (a b : Int) : Bool := decide (a < b)

/-- `getStudentCheck(students, identifier, _ref)`: more than one match is
a fatal duplicate (`process.exit`), one match returns the student, zero
matches return `null`. -/
def getStudentCheck (students : List Student) : Res (Option Student) :=
  match students with
  | [] => .ok none
  | [s] => .ok (some s)
  | _ => .exited

/-- `getStudentByUUID(uuid, _ref)`. -/
def getStudentByUUID (db : Db) (uuid : AccId) : Res (Option Student) :=
  getStudentCheck (db.students.filter (fun x => x.uuid == uuid))

/-- `getStudentByName(name, _ref)`. -/
def getStudentByName (db : Db) (name : String) : Res (Option Student) :=
  getStudentCheck (db.students.filter (fun x => x.name == name))

/-- The `reduce` inside `getStudentBalance(uuid, recalc=true)`:
`bal + (tx.amount | 0) * ((tx.to === uuid) - (tx.from === uuid))`
folded over the whole transaction log starting from 0. -/
def recalcBalance (txs : List Tx) (uuid : AccId) : Int :=
  txs.foldl
    (fun bal tx =>
      bal + toInt32 tx.amount * (boolToInt (tx.«to» == uuid) - boolToInt (tx.«from» == uuid)))
    0

/-- The in-place update performed through the live `_ref = true` student
reference when `getStudentBalance` recalculates: the matching student's
cached `balance` field is overwritten with `v`. -/
def updBal (uuid : AccId) (v : Int) (x : Student) : Student :=
  if x.uuid == uuid then { x with balance := v } else x

/-- `getStudentBalance(uuid, recalc)`: the sentinel reports the fixed
constant 10000; otherwise the student is resolved (throwing
`nullStudentError` when absent), and with `recalc` the log is replayed
and the result written back into the cached balance. -/
def getStudentBalance (db : Db) (uuid : AccId) (recalc : Bool) : Res Int × Db :=
  if uuid = AccId.reservoir then (.ok 10000, db)
  else
    match getStudentByUUID db uuid with
    | .exited => (.exited, db)
    | .looped => (.looped, db)
    | .thrown e => (.thrown e, db)
    | .ok none => (.thrown (.nullStudent uuid), db)
    | .ok (some s) =>
      if recalc then
        let bal := recalcBalance db.transactions uuid
        (.ok bal, { db with students := db.students.map (updBal uuid bal) })
      else (.ok s.balance, db)

/-- `createStudent(name, password)`.  The uuid generator is modelled as a
stream of candidates `gen`; the `do … while` collision-retry loop takes
the first candidate whose uuid is not already taken (`Res.looped` when
the modelled stream is exhausted).  `hash` models `bcrypt.hash`. -/
def createStudent (db : Db) (name password : String) (hash : String → String)
    (gen : List String) : Res String × Db :=
  if ¬ jsTrim name = name then (.thrown .nameSpaces, db)
  else if name.length = 0 then (.thrown .nameEmpty, db)
  else if password.length < 10 then (.thrown .passwordShort, db)
  else if ¬ (db.students.filter (fun x => x.name == name)).length = 0 then
    (.thrown (.userExists name), db)
  else
    match gen.find? (fun u => (db.students.filter (fun x => x.uuid == AccId.uid u)).length = 0) with
    | none => (.looped, db)
    | some uuid =>
      (.ok uuid,
        { db with students := db.students ++ [⟨AccId.uid uuid, name, hash password, 0⟩] })

/-- The `ret` object of `verifyStudent`: `student` is `false` (`none`)
or the matched account; `err` is the list of failure messages. -/
structure VerifyRet where
  student : Option Student
  err : List String
deriving DecidableEq, Repr

/-- `verifyStudent(name, password)`.  `checkPw pw pash` models
`bcrypt.compare(pw, pash)`.  On the success path the source assigns
`ret.student = students[0]` but falls off the end of the function
without a `return`, so the call yields `undefined`: modelled as
`.ok none` (whereas a returned `ret` is `.ok (some ret)`). -/
def verifyStudent (db : Db) (name password : String)
    (checkPw : String → String → Bool) : Res (Option VerifyRet) :=
  let errs :=
    (if name.length = 0 then ["Name must not be blank"] else []) ++
    (if password.length = 0 then ["Password must not be blank"] else [])
  if ¬ errs.length = 0 then .ok (some ⟨none, errs⟩)
  else
    match db.students.filter (fun x => x.name == name) with
    | [] => .ok (some ⟨none, ["\"" ++ name ++ "\" does not exist"]⟩)
    | [s] =>
      if ¬ checkPw password s.pash then .ok (some ⟨none, ["Wrong password"]⟩)
      else .ok none
    | _ => .exited

/-- The tail of `createTransaction` after the deposit/balance check:
`if (to === 0) { }` has an empty body and no `else`, so the
`getStudentByUUID(to)` existence check below it runs unconditionally;
then the transfer is pushed and both balances recalculated
(`Promise.all` over two synchronous-on-`this.db` recalculations,
resolved left to right). -/
def txStep3 (db : Db) (f t : AccId) (amount : Int) (memo : String) (now : Int) :
    Res (Option (Int × Int)) × Db :=
  match getStudentByUUID db t with
  | .exited => (.exited, db)
  | .looped => (.looped, db)
  | .thrown e => (.thrown e, db)
  | .ok none => (.thrown (.nullStudent t), db)
  | .ok (some _) =>
    match getStudentBalance
        { db with transactions := db.transactions ++ [⟨now, f, t, amount, memo⟩] } f true with
    | (.ok fromBal, db3) =>
      (match getStudentBalance db3 t true with
       | (.ok toBal, db4) => (.ok (some (fromBal, toBal)), db4)
       | (.thrown e, db4) => (.thrown e, db4)
       | (.exited, db4) => (.exited, db4)
       | (.looped, db4) => (.looped, db4))
    | (.thrown e, db3) => (.thrown e, db3)
    | (.exited, db3) => (.exited, db3)
    | (.looped, db3) => (.looped, db3)

/-- `createTransaction(from, to, amount, memo)`: validation, then the
deposit/insufficient-funds check (skipped when `from === 0`, returning
`null` = `.ok none` when the recalculated balance is below `amount`),
then `txStep3`. -/
def createTransaction (db : Db) (f t : AccId) (amount : Int) (memo : String) (now : Int) :
    Res (Option (Int × Int)) × Db :=
  if f = t then (.thrown .selfTransfer, db)
  else if ¬ amount = toInt32 amount then (.thrown .notInteger, db)
  else if amount ≤ 0 then (.thrown .notPositive, db)
  else if f = AccId.reservoir then txStep3 db f t amount memo now
  else
    match getStudentBalance db f true with
    | (.ok bal, db1) =>
      if bal < amount then (.ok none, db1)
      else txStep3 db1 f t amount memo now
    | (.thrown e, db1) => (.thrown e, db1)
    | (.exited, db1) => (.exited, db1)
    | (.looped, db1) => (.looped, db1)

/-- State of the write scheduler: `writeP` is the pending completion
handle (`null` when no write cycle is in flight), `resolvedHandles`
records the handles whose `finish()` resolver has been called. -/
structure Sched where
  writeP : Option Nat
  resolvedHandles : List Nat
deriving DecidableEq, Repr

/-- Outcome of the `fs.writeFile` flush inside a write cycle. -/
inductive FlushResult where
  | success
  | ioFailure
deriving DecidableEq, Repr

/-- `scheduleWrite()`, one whole cycle: when `writeP` is set the call
just returns the existing handle; otherwise a new handle is installed
and after the debounce the flush runs.  On success the source clears
`this.writeP`, calls `finish()` and returns the handle; on a flush
failure the `await` throws, so the lines clearing `writeP` and resolving
the handle never run and the async function rejects. -/
def scheduleWrite (s : Sched) (fresh : Nat) (flush : FlushResult) : Res Nat × Sched :=
  match s.writeP with
  | some h => (.ok h, s)
  | none =>
    match flush with
    | .success => (.ok fresh, { writeP := none, resolvedHandles := fresh :: s.resolvedHandles })
    | .ioFailure => (.thrown .ioError, { writeP := some fresh, resolvedHandles := s.resolvedHandles })

/-- The `ERRORS` exit-code table, exactly as written in the source:
`READ: 1 < 0, PARSE: 1 < 1, DUPLICATE: 1 < 2` — the `<` operator is a
comparison, so each field is a boolean. -/
structure ErrorCodes where
  READ : Bool
  PARSE : Bool
  DUPLICATE : Bool
deriving DecidableEq, Repr

/-- `ChessDbFile.ERRORS`. -/
def ERRORS : ErrorCodes :=
  { READ := jsLt 1 0, PARSE := jsLt 1 1, DUPLICATE := jsLt 1 2 }

/-- The process exit status produced by `process.exit(code)` when `code`
is one of the booleans stored in `ERRORS` (Node coerces `false` to 0 and
`true` to 1); a successful exit has status 0. -/
def exitStatusOf (b : Bool) : Nat := if b then 1 else 0

/-- Modelled from the spec: the balance fold the spec describes for
`balanceOf(id, recompute=true)` — replay the entire transfer log
"summing `+amount` where `to == id` and `-amount` where `from == id`",
starting from 0. -/
def specLogFold (txs : List Tx) (uuid : AccId) : Int :=
  txs.foldl
    (fun bal tx =>
      bal + (if tx.«to» = uuid then tx.amount else 0) -
        (if tx.«from» = uuid then tx.amount else 0))
    0

/-- Concrete store for exercising the recompute fold: one account whose
cached balance (999) is stale relative to its log-derived balance (15). -/
def dbC1 : Db :=
  ⟨[⟨AccId.uid "a", "A", "h", 999⟩],
   [⟨0, AccId.reservoir, AccId.uid "a", 20, ""⟩, ⟨1, AccId.uid "a", AccId.uid "b", 5, "m"⟩]⟩

/-- Concrete store for the sentinel-withdrawal scenario: account `"a"`
holds a log-derived balance of 20. -/
def dbC2 : Db :=
  ⟨[⟨AccId.uid "a", "A", "h", 0⟩], [⟨0, AccId.reservoir, AccId.uid "a", 20, ""⟩]⟩

/-- Concrete store for the insufficient-funds scenario: account `"a"`
has a stale cached balance of 7 while its log-derived balance is 0. -/
def dbC3 : Db := ⟨[⟨AccId.uid "a", "A", "h", 7⟩], []⟩

/-- Concrete store for the credential-check scenario: exactly one
account named `"Cortana"` with credential digest `"H1"`. -/
def dbC4 : Db := ⟨[⟨AccId.uid "a", "Cortana", "H1", 0⟩], []⟩

/-- Concrete model of `bcrypt.compare` for `dbC4`: the digest `"H1"`
matches exactly the password `"GuiltySpark343"`. -/
def cpwC4 : String → String → Bool :=
  fun pw h => pw == "GuiltySpark343" && h == "H1"

/-- Concrete store for the account-creation scenario: one account named
`"A"` with uuid `"a"`. -/
def dbC5 : Db := ⟨[⟨AccId.uid "a", "A", "h", 0⟩], []⟩

/-- Concrete model of `bcrypt.hash` for the creation scenario. -/
def hashC5 : String → String := fun p => p ++ "#"

/-- An empty concrete store. -/
def dbC6 : Db := ⟨[], []⟩

/-- Another empty concrete store, for the 32-bit amount scenario. -/
def dbC10 : Db := ⟨[], []⟩

/-! ## Helper lemmas -/

/-- `getStudentBalance` never touches the transaction log. -/
theorem getStudentBalance_transactions (db : Db) (u : AccId) (r : Bool) :
    ((getStudentBalance db u r).2).transactions = db.transactions := by
  unfold getStudentBalance
  split
  · rfl
  · split
    · rfl
    · rfl
    · rfl
    · rfl
    · split <;> rfl

/-- Filtering by uuid commutes with the cached-balance update, which
preserves every student's uuid. -/
theorem filter_map_updBal (l : List Student) (u : AccId) (v : Int) :
    (l.map (updBal u v)).filter (fun x => x.uuid == u) =
      (l.filter (fun x => x.uuid == u)).map (updBal u v) := by
  rw [List.filter_map]
  congr 1
  apply List.filter_congr
  intro x _
  simp only [Function.comp_apply, updBal]
  split <;> rfl

/-- Characterization of `getStudentBalance(uuid, recalc = true)` when
exactly one student matches: it returns the log replay value and writes
it into that student's cached balance. -/
theorem getStudentBalance_recalc_eq (db : Db) (u : AccId) (s : Student)
    (hone : db.students.filter (fun x => x.uuid == u) = [s])
    (hns : u ≠ AccId.reservoir) :
    getStudentBalance db u true =
      (.ok (recalcBalance db.transactions u),
       { db with students := db.students.map (updBal u (recalcBalance db.transactions u)) }) := by
  unfold getStudentBalance getStudentByUUID
  rw [hone]
  simp [getStudentCheck, hns]

/-- When every logged amount survives `| 0` unchanged, the code's replay
fold agrees with the spec's `+amount` / `-amount` fold. -/
theorem recalcBalance_eq_specLogFold (txs : List Tx) (u : AccId)
    (h : ∀ tx ∈ txs, toInt32 tx.amount = tx.amount) :
    recalcBalance txs u = specLogFold txs u := by
  unfold recalcBalance specLogFold
  apply List.foldl_ext
  intro b tx htx
  rw [h tx htx]
  by_cases h1 : tx.«to» = u <;> by_cases h2 : tx.«from» = u <;>
    (simp [h1, h2, boolToInt]; try ring)

/-! ## Claims -/

/-- C1: for a store state whose logged amounts are 32-bit faithful (as
every amount admitted by `createTransaction` is) and an existing,
uniquely matched account, `getStudentBalance(id, recalc = true)` returns
the fold of the full transaction log for that id — `+amount` when
`to == id`, `-amount` when `from == id`, from 0 — independently of the
prior cached balance, and calling it twice in a row from the same log
yields the same number. -/
theorem getStudentBalance_recalc_is_log_fold (db : Db) (u : AccId) (s : Student)
    (hone : db.students.filter (fun x => x.uuid == u) = [s])
    (hns : u ≠ AccId.reservoir)
    (hi32 : ∀ tx ∈ db.transactions, toInt32 tx.amount = tx.amount) :
    (getStudentBalance db u true).1 = Res.ok (specLogFold db.transactions u) ∧
    (getStudentBalance (getStudentBalance db u true).2 u true).1 =
      Res.ok (specLogFold db.transactions u) := by
  have hc := getStudentBalance_recalc_eq db u s hone hns
  have hfold := recalcBalance_eq_specLogFold db.transactions u hi32
  constructor
  · rw [hc]
    exact congrArg Res.ok hfold
  · rw [hc]
    have hone2 : ((db.students.map (updBal u (recalcBalance db.transactions u))).filter
        (fun x => x.uuid == u)) = [updBal u (recalcBalance db.transactions u) s] := by
      rw [filter_map_updBal, hone]
      rfl
    have hc2 := getStudentBalance_recalc_eq
      { db with students := db.students.map (updBal u (recalcBalance db.transactions u)) }
      u (updBal u (recalcBalance db.transactions u) s) hone2 hns
    rw [hc2]
    exact congrArg Res.ok hfold

/-- C1 witness: on `dbC1` (stale cached balance 999) the recompute
returns the log fold 15, twice in a row. -/
theorem getStudentBalance_recalc_is_log_fold_witness :
    (getStudentBalance dbC1 (AccId.uid "a") true).1 =
      Res.ok (specLogFold dbC1.transactions (AccId.uid "a")) ∧
    (getStudentBalance (getStudentBalance dbC1 (AccId.uid "a") true).2 (AccId.uid "a") true).1 =
      Res.ok (specLogFold dbC1.transactions (AccId.uid "a")) :=
  getStudentBalance_recalc_is_log_fold dbC1 (AccId.uid "a") ⟨AccId.uid "a", "A", "h", 999⟩
    (by decide) (by decide) (by decide)

/-- C7: while a write cycle is pending (`writeP` set), every further
`scheduleWrite` call returns the same pending completion handle and
leaves the scheduler state untouched — no second cycle is started,
whatever the flush of a would-be new cycle would do. -/
theorem scheduleWrite_pending_same_handle (s : Sched) (h fresh : Nat) (flush : FlushResult)
    (hp : s.writeP = some h) :
    scheduleWrite s fresh flush = (.ok h, s) := by
  unfold scheduleWrite
  rw [hp]

/-- C7 witness: a pending scheduler with handle 3 returns handle 3 to a
further call and is unchanged. -/
theorem scheduleWrite_pending_same_handle_witness :
    scheduleWrite ⟨some 3, []⟩ 9 FlushResult.success = (.ok 3, ⟨some 3, []⟩) :=
  scheduleWrite_pending_same_handle ⟨some 3, []⟩ 3 9 FlushResult.success rfl

/-- C8: evaluating the write cycle at a failing flush: the starter's
call rejects with the I/O error, but the pending slot `writeP` is NOT
cleared, the cycle's completion handle is never resolved (no waiter is
notified through it), and a subsequent `scheduleWrite` — a later
mutation's attempt — returns the stale handle without starting a new
cycle, even though its own flush would succeed. -/
theorem scheduleWrite_flush_failure_wedges :
    scheduleWrite ⟨none, []⟩ 7 FlushResult.ioFailure =
      (Res.thrown JsErr.ioError, ⟨some 7, []⟩) ∧
    (⟨some 7, ([] : List Nat)⟩ : Sched).writeP ≠ none ∧
    (⟨some 7, ([] : List Nat)⟩ : Sched).resolvedHandles = [] ∧
    scheduleWrite ⟨some 7, []⟩ 8 FlushResult.success = (.ok 7, ⟨some 7, []⟩) := by
  decide

/-- C9: the `ERRORS` table is built with `<` (comparison), not `<<`
(shift): `READ = 1 < 0 = false` and `PARSE = 1 < 1 = false` coincide,
and as `process.exit` arguments they coerce to status 0 — the status of
a successful exit — while `DUPLICATE = 1 < 2 = true` coerces to 1.  The
three fatal statuses are not pairwise distinct and two of them equal the
success status. -/
theorem ERRORS_read_parse_collide :
    ERRORS.READ = ERRORS.PARSE ∧
    exitStatusOf ERRORS.READ = 0 ∧
    exitStatusOf ERRORS.PARSE = 0 ∧
    exitStatusOf ERRORS.DUPLICATE = 1 := by
  decide

/-- C2: evaluating a withdrawal to the reservoir sentinel: in `dbC2`
the account `"a"` exists with recomputed balance 20 ≥ 5, the amount 5
is a positive integer and `from ≠ to`, yet `createTransaction` throws
the not-found error for the sentinel `to` — because the empty-bodied
`if (to === 0) { }` is not an `else`-guard for the
`getStudentByUUID(to)` check that follows it, the resolve step is NOT
skipped and no transfer is appended. -/
theorem createTransaction_sentinel_withdrawal_throws :
    recalcBalance dbC2.transactions (AccId.uid "a") = 20 ∧
    (createTransaction dbC2 (AccId.uid "a") AccId.reservoir 5 "" 1).1 =
      Res.thrown (JsErr.nullStudent AccId.reservoir) := by
  decide

/-- C4: evaluating `verifyStudent` on a store with exactly one account
named `"Cortana"`: when the credential check succeeds the call returns
`undefined` (`Res.ok none`) — the source sets `ret.student` but never
returns `ret` — while the wrong-password and does-not-exist failure
lists are returned as the claim describes. -/
theorem verifyStudent_success_returns_undefined :
    verifyStudent dbC4 "Cortana" "GuiltySpark343" cpwC4 = Res.ok none ∧
    verifyStudent dbC4 "Cortana" "wrong" cpwC4 =
      Res.ok (some ⟨none, ["Wrong password"]⟩) ∧
    verifyStudent dbC4 "Bob" "whatever" cpwC4 =
      Res.ok (some ⟨none, ["\"Bob\" does not exist"]⟩) := by
  decide

/-- C3 counterexample: an insufficient-funds call on `dbC3` (account
`"a"` with stale cached balance 7, empty log, transfer of 5) returns the
declined outcome `null`, but the store state after the call differs from
the store state before it — something IS mutated, refuting "nothing is
mutated". -/
theorem createTransaction_insufficient_mutates :
    (createTransaction dbC3 (AccId.uid "a") (AccId.uid "b") 5 "" 0).1 = Res.ok none ∧
    ¬ (createTransaction dbC3 (AccId.uid "a") (AccId.uid "b") 5 "" 0).2 = dbC3 := by
  decide

/-- C3 (amended): when `from` is not the sentinel, exists uniquely, and
its recomputed balance is below the (valid) amount, the call returns the
declined outcome `null` without throwing, the transaction log is
unchanged, and the only mutation is that `from`'s cached balance is
overwritten with its recomputed value. -/
theorem createTransaction_insufficient_declined (db : Db) (f t : AccId) (a : Int) (m : String)
    (now : Int) (s : Student)
    (hft : ¬ f = t) (hi : toInt32 a = a) (hpos : 0 < a) (hfr : ¬ f = AccId.reservoir)
    (hone : db.students.filter (fun x => x.uuid == f) = [s])
    (hlt : recalcBalance db.transactions f < a) :
    createTransaction db f t a m now =
      (Res.ok none,
       { db with students := db.students.map (updBal f (recalcBalance db.transactions f)) }) := by
  unfold createTransaction
  rw [getStudentBalance_recalc_eq db f s hone hfr, hi]
  simp [hft, hfr, hlt, not_le.mpr hpos]

/-- C3 witness: the declined transfer on `dbC3` leaves the log empty and
refreshes the cached balance of `"a"`. -/
theorem createTransaction_insufficient_declined_witness :
    createTransaction dbC3 (AccId.uid "a") (AccId.uid "b") 5 "" 0 =
      (Res.ok none,
       { dbC3 with students := dbC3.students.map (updBal (AccId.uid "a") (recalcBalance dbC3.transactions (AccId.uid "a"))) }) :=
  createTransaction_insufficient_declined dbC3 (AccId.uid "a") (AccId.uid "b") 5 "" 0
    ⟨AccId.uid "a", "A", "h", 7⟩ (by decide) (by decide) (by decide) (by decide) (by decide)
    (by decide)

/-- C6: a transfer with `from == to`, with `amount ≤ 0`, or with an
amount failing the `amount === (amount | 0)` integrality check throws
one of the three validation errors and leaves the whole store — in
particular the transaction log — unchanged. -/
theorem createTransaction_invalid_rejected (db : Db) (f t : AccId) (a : Int) (m : String)
    (now : Int) (h : f = t ∨ a ≤ 0 ∨ ¬ a = toInt32 a) :
    ∃ e, (e = JsErr.selfTransfer ∨ e = JsErr.notInteger ∨ e = JsErr.notPositive) ∧
      createTransaction db f t a m now = (.thrown e, db) := by
  by_cases hft : f = t
  · refine ⟨.selfTransfer, by simp, ?_⟩
    unfold createTransaction
    rw [if_pos hft]
  · by_cases hi : a = toInt32 a
    · have ha : a ≤ 0 := by
        rcases h with h | h | h
        · exact absurd h hft
        · exact h
        · exact absurd hi h
      refine ⟨.notPositive, by simp, ?_⟩
      unfold createTransaction
      rw [if_neg hft, if_neg (not_not_intro hi), if_pos ha]
    · refine ⟨.notInteger, by simp, ?_⟩
      unfold createTransaction
      rw [if_neg hft, if_pos hi]

/-- C6 witness: a self-transfer on the empty store is rejected with the
store unchanged. -/
theorem createTransaction_invalid_rejected_witness :
    ∃ e, (e = JsErr.selfTransfer ∨ e = JsErr.notInteger ∨ e = JsErr.notPositive) ∧
      createTransaction dbC6 (AccId.uid "a") (AccId.uid "a") 5 "" 0 = (.thrown e, dbC6) :=
  createTransaction_invalid_rejected dbC6 (AccId.uid "a") (AccId.uid "a") 5 "" 0 (Or.inl rfl)

/-- C5: `createStudent` throws a validation error for a name with
surrounding whitespace, an empty name, or a password shorter than 10;
throws the conflict error when the exact name already exists; and
otherwise appends a new account with balance 0 and a fresh uuid distinct
from every existing account uuid, returning that uuid. -/
theorem createStudent_C5_spec (db : Db) (name password : String) (hash : String → String)
    (gen : List String) :
    ((¬ jsTrim name = name ∨ name.length = 0 ∨ password.length < 10) →
      ∃ e, (e = JsErr.nameSpaces ∨ e = JsErr.nameEmpty ∨ e = JsErr.passwordShort) ∧
        createStudent db name password hash gen = (.thrown e, db)) ∧
    (jsTrim name = name → ¬ name.length = 0 → ¬ password.length < 10 →
      (∃ s ∈ db.students, s.name = name) →
      createStudent db name password hash gen = (.thrown (.userExists name), db)) ∧
    (jsTrim name = name → ¬ name.length = 0 → ¬ password.length < 10 →
      (∀ s ∈ db.students, ¬ s.name = name) →
      (∃ u ∈ gen, ∀ s ∈ db.students, ¬ s.uuid = AccId.uid u) →
      ∃ u, createStudent db name password hash gen =
          (.ok u, { db with students := db.students ++ [⟨AccId.uid u, name, hash password, 0⟩] }) ∧
        ∀ s ∈ db.students, ¬ s.uuid = AccId.uid u) := by
  refine ⟨?_, ?_, ?_⟩
  · intro h
    by_cases ht : jsTrim name = name
    · by_cases hn : name.length = 0
      · exact ⟨.nameEmpty, by simp, by simp [createStudent, ht, hn]⟩
      · have hp : password.length < 10 := by tauto
        exact ⟨.passwordShort, by simp, by simp [createStudent, ht, hn, hp]⟩
    · exact ⟨.nameSpaces, by simp, by simp [createStudent, ht]⟩
  · rintro ht hn hp ⟨s, hs, hsname⟩
    have hmem : s ∈ db.students.filter (fun x => x.name == name) :=
      List.mem_filter.mpr ⟨hs, by simp [hsname]⟩
    have hflen : ¬ (db.students.filter (fun x => x.name == name)).length = 0 := by
      simpa [List.length_eq_zero] using List.ne_nil_of_mem hmem
    simp [createStudent, ht, hn, hp, hflen]
  · rintro ht hn hp hnone ⟨u, hu, hufresh⟩
    have hflen : (db.students.filter (fun x => x.name == name)).length = 0 := by
      rw [List.length_eq_zero, List.filter_eq_nil_iff]
      intro s hs
      simpa using hnone s hs
    have hfind : (gen.find? fun u =>
        (db.students.filter (fun x => x.uuid == AccId.uid u)).length = 0).isSome := by
      rw [List.find?_isSome]
      refine ⟨u, hu, ?_⟩
      simp only [decide_eq_true_eq, List.length_eq_zero, List.filter_eq_nil_iff]
      intro s hs
      simpa using hufresh s hs
    obtain ⟨u', heq⟩ := Option.isSome_iff_exists.mp hfind
    have hfresh' : ∀ s ∈ db.students, ¬ s.uuid = AccId.uid u' := by
      have := List.find?_some heq
      simp only [decide_eq_true_eq, List.length_eq_zero, List.filter_eq_nil_iff] at this
      intro s hs
      simpa using this s hs
    refine ⟨u', ?_, hfresh'⟩
    unfold createStudent
    rw [if_neg (not_not_intro ht), if_neg hn, if_neg hp, if_neg (not_not_intro hflen), heq]

/-- C5 witness: creating `"C"` on `dbC5` succeeds with the fresh uuid,
hashed credential and balance 0 appended. -/
theorem createStudent_C5_spec_witness :
    ∃ u, createStudent dbC5 "C" "0123456789" hashC5 ["u1"] =
        (.ok u,
         { dbC5 with students := dbC5.students ++ [⟨AccId.uid u, "C", hashC5 "0123456789", 0⟩] }) ∧
      ∀ s ∈ dbC5.students, ¬ s.uuid = AccId.uid u :=
  (createStudent_C5_spec dbC5 "C" "0123456789" hashC5 ["u1"]).2.2
    (by decide) (by decide) (by decide) (by decide) ⟨"u1", by decide, by decide⟩

/-- `n | 0` always lands strictly below `2 ^ 31`. -/
theorem toInt32_lt (n : Int) : toInt32 n < 2 ^ 31 := by
  unfold toInt32
  omega

/-- `n | 0` always lands at or above `-(2 ^ 31)`. -/
theorem neg_le_toInt32 (n : Int) : -(2 ^ 31) ≤ toInt32 n := by
  unfold toInt32
  omega

/-- `getStudentCheck` never throws: it returns, returns `null`, or
exits the process. -/
theorem getStudentCheck_ne_thrown (l : List Student) (e : JsErr) :
    ¬ getStudentCheck l = .thrown e := by
  unfold getStudentCheck
  split <;> simp

/-- The only error `getStudentBalance` throws is `nullStudentError` for
the requested uuid. -/
theorem getStudentBalance_thrown_shape (db : Db) (u : AccId) (r : Bool) (e : JsErr) (d : Db)
    (h : getStudentBalance db u r = (Res.thrown e, d)) : e = JsErr.nullStudent u := by
  unfold getStudentBalance at h
  split at h
  · simp at h
  · split at h
    · simp at h
    · simp at h
    · rename_i e' heq
      rw [getStudentByUUID] at heq
      exact absurd heq (getStudentCheck_ne_thrown _ _)
    · simp at h
      exact h.1.symm
    · split at h <;> simp at h

/-- Every error thrown by the post-validation tail of
`createTransaction` is a `nullStudentError`. -/
theorem txStep3_thrown_shape (db : Db) (f t : AccId) (a : Int) (m : String) (now : Int)
    (e : JsErr) (d : Db) (h : txStep3 db f t a m now = (Res.thrown e, d)) :
    ∃ w, e = JsErr.nullStudent w := by
  unfold txStep3 at h
  split at h
  · simp at h
  · simp at h
  · rename_i e' heq
    rw [getStudentByUUID] at heq
    exact absurd heq (getStudentCheck_ne_thrown _ _)
  · simp at h
    exact ⟨t, h.1.symm⟩
  · split at h
    · split at h
      · simp at h
      · rename_i scrut1 fromBal db3 heq1 scrut2 e2 db4 heq2
        simp at h
        exact ⟨t, h.1.symm ▸ getStudentBalance_thrown_shape db3 t true e2 db4 heq2⟩
      · simp at h
      · simp at h
    · rename_i scrut1 e2 db3 heq1
      simp at h
      refine ⟨f, ?_⟩
      rw [← h.1]
      exact getStudentBalance_thrown_shape _ f true e2 db3 heq1
    · simp at h
    · simp at h

/-- A successful run of the post-validation tail appends exactly the
one new transfer to the log. -/
theorem txStep3_ok_transactions (db : Db) (f t : AccId) (a : Int) (m : String) (now : Int)
    (p : Int × Int) (db' : Db) (h : txStep3 db f t a m now = (.ok (some p), db')) :
    db'.transactions = db.transactions ++ [⟨now, f, t, a, m⟩] := by
  unfold txStep3 at h
  split at h
  · simp at h
  · simp at h
  · simp at h
  · simp at h
  · split at h
    · split at h
      · rename_i scrut1 fromBal db3 heq1 scrut2 toBal db4 heq2
        have h4 : db' = db4 := (Prod.mk.injEq .. ▸ h).2.symm
        have t1 := getStudentBalance_transactions
          { db with transactions := db.transactions ++ [⟨now, f, t, a, m⟩] } f true
        rw [heq1] at t1
        have t2 := getStudentBalance_transactions db3 t true
        rw [heq2] at t2
        rw [h4, t2, t1]
      · simp at h
      · simp at h
      · simp at h
    · simp at h
    · simp at h
    · simp at h

/-- C10: the integrality check of `createTransaction` accepts exactly
the amounts equal to their own signed 32-bit truncation: (i) with
`from ≠ to`, every amount `≥ 2 ^ 31` is rejected with the 'Amounts must
be integers' error and nothing changes; (ii) every transfer that enters
the log carries its exact amount, which lies in `[1, 2 ^ 31 - 1]`;
(iii) an amount equal to its truncation is never rejected with that
error. -/
theorem createTransaction_int32_amounts (db : Db) (f t : AccId) (a : Int) (m : String)
    (now : Int) :
    (¬ f = t → 2 ^ 31 ≤ a → createTransaction db f t a m now = (.thrown .notInteger, db)) ∧
    (∀ p db', createTransaction db f t a m now = (.ok (some p), db') →
      (1 ≤ a ∧ a ≤ 2 ^ 31 - 1) ∧
      db'.transactions = db.transactions ++ [⟨now, f, t, a, m⟩]) ∧
    (¬ f = t → a = toInt32 a →
      ¬ (createTransaction db f t a m now).1 = Res.thrown JsErr.notInteger) := by
  refine ⟨?_, ?_, ?_⟩
  · intro hft hge
    have hni : ¬ a = toInt32 a := by
      have := toInt32_lt a
      omega
    unfold createTransaction
    rw [if_neg hft, if_pos hni]
  · intro p db' h
    unfold createTransaction at h
    by_cases hft : f = t
    · rw [if_pos hft] at h
      simp at h
    rw [if_neg hft] at h
    by_cases hi : a = toInt32 a
    swap
    · rw [if_pos hi] at h
      simp at h
    rw [if_neg (not_not_intro hi)] at h
    by_cases hpos : a ≤ 0
    · rw [if_pos hpos] at h
      simp at h
    rw [if_neg hpos] at h
    have hbounds : 1 ≤ a ∧ a ≤ 2 ^ 31 - 1 := by
      have h1 := toInt32_lt a
      omega
    refine ⟨hbounds, ?_⟩
    by_cases hfr : f = AccId.reservoir
    · rw [if_pos hfr] at h
      exact txStep3_ok_transactions _ _ _ _ _ _ _ _ h
    · rw [if_neg hfr] at h
      rcases heq : getStudentBalance db f true with ⟨r1, db1⟩
      rw [heq] at h
      have t1 := getStudentBalance_transactions db f true
      rw [heq] at t1
      cases r1 with
      | ok bal =>
        by_cases hba : bal < a
        · simp [hba] at h
        · simp only [hba, if_false] at h
          rw [txStep3_ok_transactions _ _ _ _ _ _ _ _ h, t1]
      | thrown e => simp at h
      | exited => simp at h
      | looped => simp at h
  · intro hft hi
    unfold createTransaction
    rw [if_neg hft, if_neg (not_not_intro hi)]
    by_cases hpos : a ≤ 0
    · rw [if_pos hpos]
      simp
    rw [if_neg hpos]
    intro hc
    by_cases hfr : f = AccId.reservoir
    · rw [if_pos hfr] at hc
      have hpair : txStep3 db f t a m now =
          (Res.thrown JsErr.notInteger, (txStep3 db f t a m now).2) := by
        rw [← hc]
      obtain ⟨w, hw⟩ := txStep3_thrown_shape db f t a m now _ _ hpair
      simp at hw
    · rw [if_neg hfr] at hc
      rcases heq : getStudentBalance db f true with ⟨r1, db1⟩
      rw [heq] at hc
      cases r1 with
      | ok bal =>
        by_cases hba : bal < a
        · simp [hba] at hc
        · simp only [hba, if_false] at hc
          have hpair : txStep3 db1 f t a m now =
              (Res.thrown JsErr.notInteger, (txStep3 db1 f t a m now).2) := by
            rw [← hc]
          obtain ⟨w, hw⟩ := txStep3_thrown_shape db1 f t a m now _ _ hpair
          simp at hw
      | thrown e =>
        simp at hc
        have := getStudentBalance_thrown_shape db f true e db1 heq
        rw [hc] at this
        simp at this
      | exited => simp at hc
      | looped => simp at hc

/-- C10 witness: on the empty store the exact amount `2 ^ 31` — a
positive integer — is rejected with the integers error. -/
theorem createTransaction_int32_amounts_witness :
    createTransaction dbC10 (AccId.uid "a") AccId.reservoir (2 ^ 31) "" 0 =
      (.thrown .notInteger, dbC10) :=
  (createTransaction_int32_amounts dbC10 (AccId.uid "a") AccId.reservoir (2 ^ 31) "" 0).1
    (by decide) (by norm_num)

end ChessBank
